import Mathlib

/-!
Verification of the live video session coordinator of the
Sentinel_AI_SURVEILLANCE repository.

The development shallowly embeds the TypeScript sources that implement the
coordinator:

* `frontend/src/components/WebRTCPlayer.tsx` — the WHEP-style offer/answer
  negotiation against the media relay (`startWebRTC`);
* `frontend/src/hooks/useWebRTC.ts` — the per-camera connection hook with its
  connect guard, automatic reconnection timer and teardown (`connect`,
  `disconnect`, the `disconnected`/`error` event handlers);
* `frontend/src/services/webrtc.ts` — the `WebRTCConnection` event map
  (`on`/`off`/`emit`) and the `WebRTCManager` connection registry
  (`createConnection`/`closeConnection`);
* `services/websocket.ts` — the `WebSocketService` reconnection counter and its
  identical `on`/`off`/`emit` event map.

Stateful code is modelled by explicit state passing: each React state setter or
field mutation becomes a functional update of a `structure`, each event handler
becomes a state-transition function, and each `setTimeout` becomes an explicit
pending-timer field together with a separate "timer fires" transition.  Ghost
fields (`startCount`, `relayContacted`, handler costs) record the externally
observable calls the properties speak about; the surrounding logic is taken
from the source unchanged.
-/

namespace WebRTCPlayer

/-- Camera stream lifecycle states from the specification's data model.  The
player component itself never reads this state; it is threaded through
`startWebRTCWithState` as a ghost parameter to express properties that quantify
over the camera's state. -/
inductive CameraState
  | Idle
  | Starting
  | Live
  | Degraded
  | Stopping
  | Failed
deriving DecidableEq

/-- The relay's HTTP response to the WHEP POST, as observed by
`startWebRTC` in `WebRTCPlayer.tsx`: `response.ok`, `response.status`,
`response.statusText` and the response body text. -/
structure RelayResponse where
  ok : Bool
  status : Nat
  statusText : String
  body : String
deriving DecidableEq

/-- Outcome of one negotiation attempt: either the answer SDP applied as the
remote description, or the thrown error's message. -/
inductive NegotiationOutcome
  | answer (sdp : String)
  | failed (message : String)
deriving DecidableEq

/-- Observable effects of one `startWebRTC` run in `WebRTCPlayer.tsx`:
whether the relay was contacted, the request method, URL and body of the
`fetch`, the overall outcome, and the SDP installed by
`setRemoteDescription` (if any). -/
structure NegotiationResult where
  relayContacted : Bool
  requestMethod : String
  url : String
  requestBody : String
  outcome : NegotiationOutcome
  remoteAnswer : Option String
deriving DecidableEq

/-- `startWebRTC` from `WebRTCPlayer.tsx` (lines 36–112): it builds
`whepUrl = webrtcUrl + "/" + cameraId + "/whep"`, always POSTs the local offer
SDP there, and on `response.ok` applies `await response.text()` verbatim as
the remote answer; on a non-ok response it throws
`WHEP request failed: <status> <statusText>`.  The function performs no check
of the camera's stream state before the fetch, and attaches no timeout or
abort signal to it. -/
def startWebRTC (webrtcUrl cameraId offerSdp : String) (relay : RelayResponse) :
    NegotiationResult :=
  { relayContacted := true
    requestMethod := "POST"
    url := webrtcUrl ++ "/" ++ cameraId ++ "/whep"
    requestBody := offerSdp
    outcome :=
      if relay.ok then NegotiationOutcome.answer relay.body
      else NegotiationOutcome.failed
        ("WHEP request failed: " ++ toString relay.status ++ " " ++ relay.statusText)
    remoteAnswer := if relay.ok then some relay.body else none }

/-- `startWebRTC` with the camera's stream state supplied as a ghost
parameter.  The component has no access to any stream-state registry, so the
result cannot depend on `st` — the definition simply ignores it, exactly as
the source does. -/
def startWebRTCWithState (st : CameraState) (webrtcUrl cameraId offerSdp : String)
    (relay : RelayResponse) : NegotiationResult :=
  startWebRTC webrtcUrl cameraId offerSdp relay

/-- `startWebRTC` with the relay's answer delay and a hypothetical timeout
window supplied as ghost parameters.  The `fetch` in `WebRTCPlayer.tsx` is
awaited with no `AbortController`, timeout or race, so the outcome depends
only on the relay's eventual response, never on when it arrives; the
definition therefore ignores both time parameters, exactly as the source
does. -/
def startWebRTCTimed (webrtcUrl cameraId offerSdp : String) (relay : RelayResponse)
    (relayDelayMs timeoutWindowMs : Nat) : NegotiationResult :=
  startWebRTC webrtcUrl cameraId offerSdp relay

/-- The 10 000 ms constant of the `setTimeout` in `WebRTCConnection.connect`
(`webrtc.ts` lines 110–118). -/
def connectTimeoutMs : Nat := 10000

/-- Outcome of awaiting the `WebRTCConnection.connect` promise. -/
inductive ConnectOutcome
  | resolved
  | timedOut
  | pending
deriving DecidableEq

/-- The only locally enforced timeout in the sources: in
`WebRTCConnection.connect` (`webrtc.ts`), a 10-second `setTimeout` rejecting
with `WebRTC connection timeout` is armed only when `signalData` was provided;
without signal data the promise stays pending until a `connect` event
arrives.  `connectedAtMs` is the time at which the peer's `connect` event
fires, if ever. -/
def connectOutcome (signalDataProvided : Bool) (connectedAtMs : Option Nat) :
    ConnectOutcome :=
  if signalDataProvided then
    match connectedAtMs with
    | some t => if t < connectTimeoutMs then ConnectOutcome.resolved
                else ConnectOutcome.timedOut
    | none => ConnectOutcome.timedOut
  else
    match connectedAtMs with
    | some _ => ConnectOutcome.resolved
    | none => ConnectOutcome.pending

end WebRTCPlayer

namespace UseWebRTC

/-- The hook's option object from `useWebRTC.ts` with its default values:
`autoConnect = true`, `autoReconnect = true`, `reconnectDelay = 3000`. -/
structure HookOptions where
  autoConnect : Bool := true
  autoReconnect : Bool := true
  reconnectDelay : Nat := 3000
deriving DecidableEq

/-- The hook's state: the `isConnecting`/`isConnected`/`stream`/`error` React
states, the `connectionRef` and `reconnectTimeoutRef` refs (a pending timer is
recorded together with the delay it was armed with), and the ghost counter
`startCount` of external start invocations (`connection.connect()` calls). -/
structure HookState where
  isConnecting : Bool
  isConnected : Bool
  hasConnection : Bool
  hasStream : Bool
  hasError : Bool
  reconnectPending : Option Nat
  startCount : Nat
deriving DecidableEq

/-- The hook's state before any activity: all flags false, no pending timer. -/
def idleState : HookState :=
  { isConnecting := false, isConnected := false, hasConnection := false
    hasStream := false, hasError := false, reconnectPending := none
    startCount := 0 }

/-- A state in which the hook is connected and streaming. -/
def connectedState : HookState :=
  { isConnecting := false, isConnected := true, hasConnection := true
    hasStream := true, hasError := false, reconnectPending := none
    startCount := 1 }

/-- The `connect` callback of `useWebRTC.ts` (lines 60–171) at render
granularity: if `isConnecting || isConnected` it returns immediately (only
logging a warning); otherwise it sets `isConnecting`, clears `error`, creates
the `WebRTCConnection` and awaits `connection.connect()` — the external start
attempt, counted by `startCount`.  The guard here reads the current state,
which models a call whose closure was created by a render that has already
seen all previous updates — i.e. calls separated by re-renders.  Calls within
one render cycle share one stale closure; that semantics is
`connectWithSnapshot` below, and `connect s` is its special case
`connectWithSnapshot (snapshotOf s) s`. -/
def connect (s : HookState) : HookState :=
  if s.isConnecting || s.isConnected then s
  else
    { s with isConnecting := true, hasError := false, hasConnection := true
             startCount := s.startCount + 1 }

/-- The pair of React state values the `connect` callback's closure captured
at the render that created it.  The `useState` setters do not mutate captured
values: until the component re-renders and `useCallback` produces a new
callback, every call to the same callback reads this same snapshot, whatever
`setIsConnecting`/`setIsConnected` calls happened in between. -/
structure RenderSnapshot where
  isConnecting : Bool
  isConnected : Bool
deriving DecidableEq

/-- The snapshot a render captures from state `s`. -/
def snapshotOf (s : HookState) : RenderSnapshot :=
  { isConnecting := s.isConnecting, isConnected := s.isConnected }

/-- The snapshot captured by a render made while the hook is idle. -/
def idleSnapshot : RenderSnapshot :=
  { isConnecting := false, isConnected := false }

/-- The `connect` callback with React's actual closure semantics for calls
inside one render cycle: the `if (isConnecting || isConnected)` guard reads
the values captured in the snapshot `snap` of the render that created the
callback, while the effects (`setIsConnecting(true)`, creating the
connection, awaiting `connection.connect()`) accumulate in the live state
`s`.  Nothing in `useWebRTC.ts` refreshes the guard's view between two calls
to the same callback. -/
def connectWithSnapshot (snap : RenderSnapshot) (s : HookState) : HookState :=
  if snap.isConnecting || snap.isConnected then s
  else
    { s with isConnecting := true, hasError := false, hasConnection := true
             startCount := s.startCount + 1 }

/-- The `connection.on('connected')` handler: sets `isConnected`, clears
`isConnecting`. -/
def onConnected (s : HookState) : HookState :=
  { s with isConnected := true, isConnecting := false }

/-- The `connection.on('stream')` handler: stores the media stream, sets
`isConnected`, clears `isConnecting`. -/
def onStream (s : HookState) : HookState :=
  { s with hasStream := true, isConnected := true, isConnecting := false }

/-- The `connection.on('disconnected')` handler (lines 102–116): clears
`isConnected` and the stream; when `autoReconnect` is set it arms
`reconnectTimeoutRef` with `setTimeout(connect, reconnectDelay)` — the fixed
configured delay, with no retry counter involved. -/
def onDisconnected (o : HookOptions) (s : HookState) : HookState :=
  if o.autoReconnect then
    { s with isConnected := false, hasStream := false
             reconnectPending := some o.reconnectDelay }
  else { s with isConnected := false, hasStream := false }

/-- The `connection.on('error')` handler (lines 119–133): records the error,
clears `isConnecting`; when `autoReconnect` is set it arms the same
fixed-delay reconnection timer. -/
def onError (o : HookOptions) (s : HookState) : HookState :=
  if o.autoReconnect then
    { s with hasError := true, isConnecting := false
             reconnectPending := some o.reconnectDelay }
  else { s with hasError := true, isConnecting := false }

/-- The armed `setTimeout` callback firing: it runs only while the timer is
still pending (a cleared timer never fires), consumes the timer and calls
`connect`. -/
def timerFire (s : HookState) : HookState :=
  if s.reconnectPending.isSome then connect { s with reconnectPending := none }
  else s

/-- The `disconnect` callback of `useWebRTC.ts` (lines 176–196): clears the
pending reconnection timeout (`clearTimeout`), closes and drops the
connection, and resets `isConnecting`, `isConnected`, `stream` and `error`.
`startCount` is a ghost counter of past external start calls and is
untouched. -/
def disconnect (s : HookState) : HookState :=
  { isConnecting := false, isConnected := false, hasConnection := false
    hasStream := false, hasError := false, reconnectPending := none
    startCount := s.startCount }

/-- The default option object (`options = {}` in the hook's callers). -/
def defaultOptions : HookOptions := {}

/-- One full failure cycle while auto-reconnecting: the pending timer fires
(re-running `connect`), and the new attempt fails, triggering the `error`
handler. -/
def nextFailure (o : HookOptions) (s : HookState) : HookState :=
  onError o (timerFire s)

/-- The hook's state after the initial drop `s` followed by `n` further
consecutive failed reconnection attempts. -/
def afterFailures (o : HookOptions) (s : HookState) : Nat → HookState
  | 0 => s
  | n + 1 => nextFailure o (afterFailures o s n)

/-- Modelled from the spec's words: the Reconnection Supervisor's delay
formula `min(baseDelay * 2^retryCount, maxDelay)`, stated here only to compare
the specified policy with the hook's actual fixed delay. -/
def specRetryDelay (baseDelay maxDelay retryCount : Nat) : Nat :=
  min (baseDelay * 2 ^ retryCount) maxDelay

end UseWebRTC

namespace WebRTCManager

/-- One registry operation on the `WebRTCManager` of `webrtc.ts`:
`createConnection cameraId` or `closeConnection cameraId`. -/
inductive RegOp
  | create (cameraId : String)
  | close (cameraId : String)
deriving DecidableEq

/-- The key set of the manager's `connections : Map<string, WebRTCConnection>`
is modelled as the list of camera ids holding a connection, in insertion
order and (in every reachable state) without duplicates. -/
abbrev Registry := List String

/-- `WebRTCManager.createConnection` (`webrtc.ts` lines 246–263): if a
connection for the camera exists it is closed (`closeConnection`, deleting the
key); a fresh connection is then stored with `connections.set`, appending the
key. -/
def createConnection (m : Registry) (c : String) : Registry :=
  m.filter (fun x => x ≠ c) ++ [c]

/-- `WebRTCManager.closeConnection` (`webrtc.ts` lines 280–286): disconnects
and deletes the camera's entry if present; otherwise does nothing. -/
def closeConnection (m : Registry) (c : String) : Registry :=
  m.filter (fun x => x ≠ c)

/-- Apply one registry operation. -/
def applyOp (m : Registry) : RegOp → Registry
  | RegOp.create c => createConnection m c
  | RegOp.close c => closeConnection m c

/-- Apply a sequence of registry operations in order. -/
def applyOps (m : Registry) (ops : List RegOp) : Registry :=
  ops.foldl applyOp m

/-- The number of connections the manager holds for camera `c` — its "viewer
count" in the claim's reading. -/
def viewerCount (m : Registry) (c : String) : Nat :=
  if c ∈ m then 1 else 0

/-- Number of `createConnection` calls for camera `c` in the sequence. -/
def registrations (ops : List RegOp) (c : String) : Nat :=
  ops.countP (fun op => match op with
    | RegOp.create c' => c' == c
    | RegOp.close _ => false)

/-- Number of `closeConnection` calls for camera `c` in the sequence. -/
def unregistrations (ops : List RegOp) (c : String) : Nat :=
  ops.countP (fun op => match op with
    | RegOp.create _ => false
    | RegOp.close c' => c' == c)

/-- Whether, after folding `ops` over a state in which camera `c` is present
iff `b`, camera `c` holds a connection: the last `create`/`close` for `c`
decides. -/
def lastIsCreateFrom (ops : List RegOp) (c : String) (b : Bool) : Bool :=
  ops.foldl (fun acc op => match op with
    | RegOp.create c' => if c' = c then true else acc
    | RegOp.close c' => if c' = c then false else acc) b

/-- Starting from the empty registry: camera `c` ends with a connection iff
its last operation in `ops` is a `create`. -/
def lastIsCreate (ops : List RegOp) (c : String) : Bool :=
  lastIsCreateFrom ops c false

/-- The operation sequence of the refuting scenario: two registrations for
`cam1` followed by one unregistration. -/
def doubleRegisterOps : List RegOp :=
  [RegOp.create "cam1", RegOp.create "cam1", RegOp.close "cam1"]

end WebRTCManager

namespace WebSocketService

/-- The `WebSocketService` state from `websocket.ts`: the `reconnectAttempts`
counter, the socket's connected flag, and the one-shot error-log flag. -/
structure WSState where
  reconnectAttempts : Nat
  connected : Bool
  connectionErrorLogged : Bool
deriving DecidableEq

/-- `maxReconnectAttempts = 5` (`websocket.ts` line 14), passed to the
socket.io client as `reconnectionAttempts`. -/
def maxReconnectAttempts : Nat := 5

/-- `reconnectDelay = 1000` (`websocket.ts` line 15), passed to the socket.io
client as `reconnectionDelay`. -/
def reconnectDelay : Nat := 1000

/-- The `socket.on('connect')` handler (`websocket.ts` lines 55–59): resets
`reconnectAttempts` to 0 and emits a connected status event. -/
def onConnect (s : WSState) : WSState :=
  { s with connected := true, reconnectAttempts := 0 }

/-- The `socket.on('connect_error')` handler: increments `reconnectAttempts`
and logs the first error. -/
def onConnectError (s : WSState) : WSState :=
  { s with reconnectAttempts := s.reconnectAttempts + 1
           connectionErrorLogged := true }

/-- The `socket.on('disconnect')` handler: records the socket as
disconnected. -/
def onDisconnect (s : WSState) : WSState :=
  { s with connected := false }

end WebSocketService

namespace StatusBroadcaster

/-- One subscriber handler as the publisher observes it: an identity, whether
invoking it throws, and how long it runs. -/
structure Handler where
  id : Nat
  throws : Bool
  cost : Nat
deriving DecidableEq

/-- The `emit` loop shared by `WebRTCConnection.emit` (`webrtc.ts` lines
198–209) and `WebSocketService.emit` (`websocket.ts` lines 139–150):
`handlers.forEach` invokes every handler in order inside a `try`/`catch`
whose `catch` only logs, so a throwing handler neither stops the loop nor
escapes it.  Returns the ids invoked (in order) and the ids whose errors were
caught and logged. -/
def runHandlers : List Handler → List Nat × List Nat
  | [] => ([], [])
  | h :: rest =>
      (h.id :: (runHandlers rest).1,
       if h.throws then h.id :: (runHandlers rest).2 else (runHandlers rest).2)

/-- Duration of one `emit` call as the publisher experiences it: the
`forEach` loop is synchronous, so the publisher waits for every handler to
finish before `emit` returns. -/
def emitDuration (hs : List Handler) : Nat :=
  (hs.map Handler.cost).sum

end StatusBroadcaster

namespace WebRTCEvents

/-- The handler table `Map<string, Set<WebRTCEventHandler>>` shared by
`WebRTCConnection` (`webrtc.ts`) and `WebSocketService` (`websocket.ts`):
an insertion-ordered association of event names to insertion-ordered,
duplicate-free handler sets.  Handlers are identified by `Nat` ids (JS `Set`
membership is reference identity). -/
abbrev Handlers := List (String × List Nat)

/-- `Set.add`: appends the handler unless it is already present. -/
def addSet (l : List Nat) (h : Nat) : List Nat :=
  if h ∈ l then l else l ++ [h]

/-- `Set.delete`: removes the handler, keeping the order of the rest. -/
def removeSet (l : List Nat) (h : Nat) : List Nat :=
  l.filter (fun x => x ≠ h)

/-- `eventHandlers.get(event)`, defaulting to the empty set: the handlers an
`emit(event)` would invoke, in order. -/
def getHandlers : Handlers → String → List Nat
  | [], _ => []
  | (e', hs) :: rest, e => if e' = e then hs else getHandlers rest e

/-- The `on(event, handler)` method: creates the event's `Set` if missing
(`Map.set` appends a new key) and adds the handler to it. -/
def subscribe : Handlers → String → Nat → Handlers
  | [], e, h => [(e, [h])]
  | (e', hs) :: rest, e, h =>
      if e' = e then (e', addSet hs h) :: rest
      else (e', hs) :: subscribe rest e h

/-- The `off(event, handler)` method: deletes the handler from the event's
`Set` and deletes the map entry when the set becomes empty. -/
def unsubscribe : Handlers → String → Nat → Handlers
  | [], _, _ => []
  | (e', hs) :: rest, e, h =>
      if e' = e then
        if removeSet hs h = [] then rest
        else (e', removeSet hs h) :: rest
      else (e', hs) :: unsubscribe rest e h

/-- The keys of the handler table. -/
def keys (m : Handlers) : List String :=
  m.map Prod.fst

end WebRTCEvents

namespace WebRTCPlayer

/-- C4: every negotiation attempt POSTs the local SDP offer to the relay
endpoint `<webrtcUrl>/<cameraId>/whep`, and on a successful (2xx / `ok`)
response the relay's response body is applied verbatim as the remote answer
SDP. -/
theorem c4_whep_post_verbatim_answer (u c o : String) (r : RelayResponse)
    (hok : r.ok = true) :
    (startWebRTC u c o r).requestMethod = "POST"
  ∧ (startWebRTC u c o r).url = u ++ "/" ++ c ++ "/whep"
  ∧ (startWebRTC u c o r).requestBody = o
  ∧ (startWebRTC u c o r).outcome = NegotiationOutcome.answer r.body
  ∧ (startWebRTC u c o r).remoteAnswer = some r.body := by
  simp [startWebRTC, hok]

/-- Witness for C4 at the concrete relay answer `v=0 answer` for camera
`cam1`. -/
theorem c4_witness :
    (RelayResponse.mk true 201 "Created" "v=0 answer").ok = true
  ∧ ((startWebRTC "http://localhost:8889" "cam1" "v=0 offer"
        (RelayResponse.mk true 201 "Created" "v=0 answer")).requestMethod = "POST"
     ∧ (startWebRTC "http://localhost:8889" "cam1" "v=0 offer"
          (RelayResponse.mk true 201 "Created" "v=0 answer")).url
         = "http://localhost:8889" ++ "/" ++ "cam1" ++ "/whep"
     ∧ (startWebRTC "http://localhost:8889" "cam1" "v=0 offer"
          (RelayResponse.mk true 201 "Created" "v=0 answer")).requestBody = "v=0 offer"
     ∧ (startWebRTC "http://localhost:8889" "cam1" "v=0 offer"
          (RelayResponse.mk true 201 "Created" "v=0 answer")).outcome
         = NegotiationOutcome.answer (RelayResponse.mk true 201 "Created" "v=0 answer").body
     ∧ (startWebRTC "http://localhost:8889" "cam1" "v=0 offer"
          (RelayResponse.mk true 201 "Created" "v=0 answer")).remoteAnswer
         = some (RelayResponse.mk true 201 "Created" "v=0 answer").body) :=
  ⟨rfl, c4_whep_post_verbatim_answer "http://localhost:8889" "cam1" "v=0 offer"
    (RelayResponse.mk true 201 "Created" "v=0 answer") rfl⟩

/-- C3 counterexample: for an Idle camera, `startWebRTC` still contacts the
Media Relay (claim says no request is sent), and the failure it reports when
the relay has no such stream is the relay's own non-2xx status mapped to
`WHEP request failed: …`, not a locally produced `CameraUnavailable`. -/
theorem c3_counterexample :
    (startWebRTCWithState CameraState.Idle "http://localhost:8889" "cam1" "v=0 offer"
       (RelayResponse.mk false 404 "Not Found" "")).relayContacted = true
  ∧ (startWebRTCWithState CameraState.Idle "http://localhost:8889" "cam1" "v=0 offer"
       (RelayResponse.mk false 404 "Not Found" "")).outcome
      = NegotiationOutcome.failed "WHEP request failed: 404 Not Found" := by
  constructor
  · rfl
  · decide

/-- C3 (amended): the negotiation forwards the offer to the Media Relay
regardless of the camera's stream state; when the relay rejects the request
(non-2xx), the caller observes `WHEP request failed: <status> <statusText>`
rather than a `CameraUnavailable` error raised before contacting the
relay. -/
theorem c3_relay_always_contacted (st : CameraState) (u c o : String)
    (r : RelayResponse) (hfail : r.ok = false) :
    (startWebRTCWithState st u c o r).relayContacted = true
  ∧ (startWebRTCWithState st u c o r).outcome
      = NegotiationOutcome.failed
          ("WHEP request failed: " ++ toString r.status ++ " " ++ r.statusText) := by
  simp [startWebRTCWithState, startWebRTC, hfail]

/-- Witness for C3's amended theorem: a Failed camera, relay answering 404. -/
theorem c3_witness :
    (RelayResponse.mk false 404 "Not Found" "").ok = false
  ∧ ((startWebRTCWithState CameraState.Failed "http://localhost:8889" "cam1" "v=0 offer"
        (RelayResponse.mk false 404 "Not Found" "")).relayContacted = true
     ∧ (startWebRTCWithState CameraState.Failed "http://localhost:8889" "cam1" "v=0 offer"
          (RelayResponse.mk false 404 "Not Found" "")).outcome
         = NegotiationOutcome.failed
             ("WHEP request failed: "
               ++ toString (RelayResponse.mk false 404 "Not Found" "").status
               ++ " " ++ (RelayResponse.mk false 404 "Not Found" "").statusText)) :=
  ⟨rfl, c3_relay_always_contacted CameraState.Failed "http://localhost:8889" "cam1"
    "v=0 offer" (RelayResponse.mk false 404 "Not Found" "") rfl⟩

/-- C5 counterexample: the relay answers only after 20 000 ms, twice any
10 000 ms window, yet the negotiation still completes with the relay's
answer — no `NegotiationTimeout` error is ever produced, because the WHEP
`fetch` carries no locally enforced timeout. -/
theorem c5_counterexample :
    (startWebRTCTimed "http://localhost:8889" "cam1" "v=0 offer"
       (RelayResponse.mk true 201 "Created" "v=0 answer") 20000 10000).outcome
      = NegotiationOutcome.answer "v=0 answer"
  ∧ (startWebRTCTimed "http://localhost:8889" "cam1" "v=0 offer"
       (RelayResponse.mk true 201 "Created" "v=0 answer") 20000 10000).outcome
      ≠ NegotiationOutcome.failed "NegotiationTimeout" := by
  constructor
  · rfl
  · decide

/-- C5 (amended): the WHEP negotiation itself has no locally enforced
timeout — its result is independent of how long the relay takes to answer.
The only local timeout in the sources is the 10 000 ms guard inside
`WebRTCConnection.connect`, armed only when initial signal data is provided,
which rejects with `WebRTC connection timeout` when the peer has not
connected within the window. -/
theorem c5_no_negotiation_timeout (u c o : String) (r : RelayResponse)
    (dA dB w t : Nat) (ht : t < connectTimeoutMs) :
    startWebRTCTimed u c o r dA w = startWebRTCTimed u c o r dB w
  ∧ connectTimeoutMs = 10000
  ∧ connectOutcome true none = ConnectOutcome.timedOut
  ∧ connectOutcome false none = ConnectOutcome.pending
  ∧ connectOutcome true (some t) = ConnectOutcome.resolved := by
  refine ⟨rfl, rfl, rfl, rfl, ?_⟩
  simp [connectOutcome, ht]

/-- Witness for C5's amended theorem: connect event at 500 ms, inside the
10 000 ms window; relay delays 20 000 ms versus 30 000 ms give identical
negotiation results. -/
theorem c5_witness :
    500 < connectTimeoutMs
  ∧ (startWebRTCTimed "http://localhost:8889" "cam1" "v=0 offer"
       (RelayResponse.mk true 201 "Created" "v=0 answer") 20000 10000
      = startWebRTCTimed "http://localhost:8889" "cam1" "v=0 offer"
          (RelayResponse.mk true 201 "Created" "v=0 answer") 30000 10000
     ∧ connectTimeoutMs = 10000
     ∧ connectOutcome true none = ConnectOutcome.timedOut
     ∧ connectOutcome false none = ConnectOutcome.pending
     ∧ connectOutcome true (some 500) = ConnectOutcome.resolved) :=
  ⟨by decide, c5_no_negotiation_timeout "http://localhost:8889" "cam1" "v=0 offer"
    (RelayResponse.mk true 201 "Created" "v=0 answer") 20000 30000 10000 500 (by decide)⟩

end WebRTCPlayer

namespace UseWebRTC

/-- While the hook is already connecting or connected, `connect` returns
without touching anything. -/
theorem connect_of_active (s : HookState)
    (h : s.isConnecting = true ∨ s.isConnected = true) : connect s = s := by
  rcases h with h | h <;> simp [connect, h]

/-- `connect` never changes `isConnected` (the `connected` event handler
does). -/
theorem connect_isConnected (s : HookState) :
    (connect s).isConnected = s.isConnected := by
  unfold connect
  split <;> rfl

/-- Iterating `connect` from a state that is already connecting changes
nothing. -/
theorem iterate_connect_of_connecting (n : Nat) (s : HookState)
    (h : s.isConnecting = true) : connect^[n] s = s := by
  induction n with
  | zero => rfl
  | succ k ih =>
      rw [Function.iterate_succ_apply, connect_of_active s (Or.inl h)]
      exact ih

/-- Render-granularity `connect` is the snapshot semantics applied to a
fresh snapshot of the current state. -/
theorem connect_eq_connectWithSnapshot (s : HookState) :
    connect s = connectWithSnapshot (snapshotOf s) s := rfl

/-- C1: evaluation of the hook's `connect` at the claim's failing input.
Two viewer-arrival `connect` calls in the same render cycle for an idle
camera share the idle render's closure, so the
`if (isConnecting || isConnected)` guard reads the stale snapshot both
times: both calls proceed and each creates a `WebRTCConnection` and awaits
`connection.connect()` — two external start invocations in one start cycle,
where the claim (and the spec's per-camera mutual exclusion) requires
exactly one.  Only a call whose closure comes from a re-render that has seen
the first call's state — the second conjunct — observes Starting and
no-ops. -/
theorem c1_duplicate_start_same_render :
    (connectWithSnapshot idleSnapshot (connectWithSnapshot idleSnapshot idleState)).startCount = 2
  ∧ (connectWithSnapshot (snapshotOf (connectWithSnapshot idleSnapshot idleState))
       (connectWithSnapshot idleSnapshot idleState)).startCount = 1 := by
  decide

/-- C2 counterexample: with the hook's defaults (`reconnectDelay = 3000`,
auto-reconnect on), the delay armed after the first failed reconnection is
still 3000 ms where the claimed formula `min(baseDelay * 2^retryCount,
maxDelay)` gives 6000 ms; and after 7 consecutive failures — beyond any
configured maximum of 5 — the hook still has a pending retry whose firing
performs another start attempt, instead of the session being Closed with no
further attempts. -/
theorem c2_counterexample :
    (afterFailures defaultOptions (onDisconnected defaultOptions connectedState) 1).reconnectPending
      = some 3000
  ∧ specRetryDelay 3000 30000 1 = 6000
  ∧ (afterFailures defaultOptions (onDisconnected defaultOptions connectedState) 7).reconnectPending
      = some 3000
  ∧ (timerFire (afterFailures defaultOptions (onDisconnected defaultOptions connectedState) 7)).startCount
      = (afterFailures defaultOptions (onDisconnected defaultOptions connectedState) 7).startCount + 1 := by
  decide

/-- Invariant of a run of consecutive failures: the retry timer is always
armed with the fixed configured delay, and the hook is neither connecting nor
connected. -/
theorem afterFailures_invariant (o : HookOptions) (s : HookState) (n : Nat)
    (ha : o.autoReconnect = true) (hs : s.isConnecting = false) :
    (afterFailures o (onDisconnected o s) n).reconnectPending = some o.reconnectDelay
  ∧ (afterFailures o (onDisconnected o s) n).isConnecting = false
  ∧ (afterFailures o (onDisconnected o s) n).isConnected = false := by
  induction n with
  | zero =>
      simp [afterFailures, onDisconnected, ha, hs]
  | succ k ih =>
      obtain ⟨h1, h2, h3⟩ := ih
      refine ⟨?_, ?_, ?_⟩ <;>
        simp [afterFailures, nextFailure, onError, ha, timerFire, h1,
          connect_isConnected, h3]

/-- C2 (amended): on every consecutive connection failure the hook arms the
reconnection timer with the fixed configured `reconnectDelay`, independent of
how many failures precede it — there is no exponential-backoff formula and no
retry counter in the hook — and no retry budget exists: after any number of
consecutive failures the pending timer's firing performs a further start
attempt.  (The constants `maxReconnectAttempts = 5` and `reconnectDelay =
1000` exist only as `WebSocketService` configuration handed to the socket.io
client library.) -/
theorem c2_fixed_delay_unbounded_retry (o : HookOptions) (s : HookState) (n : Nat)
    (ha : o.autoReconnect = true) (hs : s.isConnecting = false) :
    (afterFailures o (onDisconnected o s) n).reconnectPending = some o.reconnectDelay
  ∧ (timerFire (afterFailures o (onDisconnected o s) n)).startCount
      = (afterFailures o (onDisconnected o s) n).startCount + 1 := by
  obtain ⟨h1, h2, h3⟩ := afterFailures_invariant o s n ha hs
  refine ⟨h1, ?_⟩
  simp [timerFire, h1, connect, h2, h3]

/-- Witness for C2's amended theorem: six consecutive failures from a
connected state under the default options. -/
theorem c2_witness :
    defaultOptions.autoReconnect = true
  ∧ connectedState.isConnecting = false
  ∧ ((afterFailures defaultOptions (onDisconnected defaultOptions connectedState) 6).reconnectPending
       = some defaultOptions.reconnectDelay
     ∧ (timerFire (afterFailures defaultOptions (onDisconnected defaultOptions connectedState) 6)).startCount
         = (afterFailures defaultOptions (onDisconnected defaultOptions connectedState) 6).startCount + 1) :=
  ⟨rfl, rfl, c2_fixed_delay_unbounded_retry defaultOptions connectedState 6 rfl rfl⟩

/-- C7: the hook's `disconnect` clears any pending reconnection timer
(`clearTimeout`), a timer event arriving afterwards is inert, and no further
negotiation attempt is made — the count of external start invocations stays
where it was. -/
theorem c7_disconnect_cancels_retry (s : HookState) :
    (disconnect s).reconnectPending = none
  ∧ timerFire (disconnect s) = disconnect s
  ∧ (timerFire (disconnect s)).startCount = s.startCount :=
  ⟨rfl, rfl, rfl⟩

end UseWebRTC

namespace WebSocketService

/-- Each `connect_error` adds one to the reconnection counter. -/
theorem iterate_onConnectError (k : Nat) (s : WSState) :
    (onConnectError^[k] s).reconnectAttempts = s.reconnectAttempts + k := by
  induction k generalizing s with
  | zero => rfl
  | succ m ih =>
      rw [Function.iterate_succ_apply, ih]
      simp [onConnectError]
      omega

/-- C8: the `connect` handler resets `reconnectAttempts` to zero, so `k`
subsequent consecutive failures count `k` from the beginning of the
budget. -/
theorem c8_retry_count_reset (s : WSState) (k : Nat) :
    (onConnect s).reconnectAttempts = 0
  ∧ (onConnectError^[k] (onConnect s)).reconnectAttempts = k := by
  refine ⟨rfl, ?_⟩
  rw [iterate_onConnectError]
  simp [onConnect]

end WebSocketService

namespace WebRTCManager

/-- Membership after `createConnection`: the created camera is present, the
rest is untouched. -/
theorem mem_createConnection (m : Registry) (c c' : String) :
    c ∈ createConnection m c' ↔ (c = c' ∨ c ∈ m) := by
  by_cases h : c = c'
  · subst h
    simp [createConnection]
  · simp [createConnection, h, List.mem_filter]

/-- Membership after `closeConnection`: the closed camera is gone, the rest
is untouched. -/
theorem mem_closeConnection (m : Registry) (c c' : String) :
    c ∈ closeConnection m c' ↔ (c ∈ m ∧ c ≠ c') := by
  simp [closeConnection, List.mem_filter]

/-- Presence of a camera after a sequence of registry operations is decided
by its last `create`/`close` in the sequence (or the initial presence when
none occurs). -/
theorem mem_applyOps (ops : List RegOp) (m : Registry) (c : String) :
    decide (c ∈ applyOps m ops) = lastIsCreateFrom ops c (decide (c ∈ m)) := by
  induction ops generalizing m with
  | nil => rfl
  | cons op rest ih =>
      cases op with
      | create c' =>
          have hstep : applyOps m (RegOp.create c' :: rest)
              = applyOps (createConnection m c') rest := rfl
          rw [hstep, ih]
          have harg : decide (c ∈ createConnection m c')
              = (if c' = c then true else decide (c ∈ m)) := by
            by_cases h : c' = c
            · subst h
              simp [mem_createConnection]
            · rw [if_neg h, decide_eq_decide, mem_createConnection]
              constructor
              · rintro (h1 | h1)
                · exact absurd h1.symm h
                · exact h1
              · intro h1
                exact Or.inr h1
          rw [harg]
          rfl
      | close c' =>
          have hstep : applyOps m (RegOp.close c' :: rest)
              = applyOps (closeConnection m c') rest := rfl
          rw [hstep, ih]
          have harg : decide (c ∈ closeConnection m c')
              = (if c' = c then false else decide (c ∈ m)) := by
            by_cases h : c' = c
            · subst h
              simp [mem_closeConnection]
            · rw [if_neg h, decide_eq_decide, mem_closeConnection]
              constructor
              · intro h1
                exact h1.1
              · intro h1
                exact ⟨h1, fun hh => h hh.symm⟩
          rw [harg]
          rfl

/-- C6 counterexample: two `createConnection` calls for `cam1` followed by
one `closeConnection` leave zero connections for `cam1`, while the claim's
`registrations − unregistrations` predicts 1 — the manager replaces rather
than reference-counts. -/
theorem c6_counterexample :
    viewerCount (applyOps [] doubleRegisterOps) "cam1" = 0
  ∧ registrations doubleRegisterOps "cam1"
      - unregistrations doubleRegisterOps "cam1" = 1 := by
  decide

/-- C6 (amended): the `WebRTCManager` holds at most one connection per
camera: after any sequence of `createConnection`/`closeConnection` calls
starting from the empty registry, a camera's connection count is 1 exactly
when its last operation in the sequence is a `create` (so it is never
negative and never exceeds 1), not `registrations − unregistrations`; a
positive count means exactly that a `WebRTCConnection` object is currently
stored for the camera — the manager tracks no Starting/Live/Degraded stream
state. -/
theorem c6_at_most_one_connection (ops : List RegOp) (c : String) :
    viewerCount (applyOps [] ops) c = (if lastIsCreate ops c then 1 else 0)
  ∧ viewerCount (applyOps [] ops) c ≤ 1 := by
  have h := mem_applyOps ops [] c
  have h0 : decide (c ∈ ([] : Registry)) = false := by simp
  rw [h0] at h
  constructor
  · unfold viewerCount lastIsCreate
    rw [← h]
    by_cases hm : c ∈ applyOps [] ops
    · simp [hm]
    · simp [hm]
  · unfold viewerCount
    split <;> omega

end WebRTCManager

namespace StatusBroadcaster

/-- `emit` invokes every registered handler, in registration order,
regardless of which handlers throw. -/
theorem runHandlers_fst (hs : List Handler) :
    (runHandlers hs).1 = hs.map Handler.id := by
  induction hs with
  | nil => rfl
  | cons h rest ih => simp [runHandlers, ih]

/-- The errors `emit` catches and logs are exactly those of the throwing
handlers, in order. -/
theorem runHandlers_snd (hs : List Handler) :
    (runHandlers hs).2 = (hs.filter Handler.throws).map Handler.id := by
  induction hs with
  | nil => rfl
  | cons h rest ih =>
      by_cases ht : h.throws
      · simp [runHandlers, List.filter_cons, ht, ih]
      · simp [runHandlers, List.filter_cons, ht, ih]

/-- C9 (amended): `emit` synchronously invokes every currently registered
handler in registration order; a handler that throws is caught (its error
only logged) and does not prevent delivery to the remaining handlers.  There
is no per-subscriber queue: delivery is synchronous and unbuffered, so no
event is ever dropped and the publisher waits for each handler. -/
theorem c9_emit_all_handlers (hs : List Handler) (h : Handler) (hmem : h ∈ hs) :
    (runHandlers hs).1 = hs.map Handler.id
  ∧ h.id ∈ (runHandlers hs).1
  ∧ (runHandlers hs).2 = (hs.filter Handler.throws).map Handler.id := by
  refine ⟨runHandlers_fst hs, ?_, runHandlers_snd hs⟩
  rw [runHandlers_fst]
  exact List.mem_map_of_mem Handler.id hmem

/-- Witness for C9's amended theorem: two handlers, the first of which
throws; both are invoked and only the first is logged. -/
theorem c9_witness :
    Handler.mk 2 false 7 ∈ [Handler.mk 1 true 0, Handler.mk 2 false 7]
  ∧ ((runHandlers [Handler.mk 1 true 0, Handler.mk 2 false 7]).1
       = [Handler.mk 1 true 0, Handler.mk 2 false 7].map Handler.id
     ∧ (Handler.mk 2 false 7).id ∈ (runHandlers [Handler.mk 1 true 0, Handler.mk 2 false 7]).1
     ∧ (runHandlers [Handler.mk 1 true 0, Handler.mk 2 false 7]).2
       = ([Handler.mk 1 true 0, Handler.mk 2 false 7].filter Handler.throws).map Handler.id) :=
  ⟨by decide, c9_emit_all_handlers [Handler.mk 1 true 0, Handler.mk 2 false 7]
    (Handler.mk 2 false 7) (by decide)⟩

/-- C9 counterexample: `emit` is a synchronous `forEach`, so a handler
running for 5000 ms holds the publisher inside `emit` for those 5000 ms — a
slow subscriber does block the publisher, and no bounded per-subscriber
queue with a drop-oldest policy exists (every handler of every event is
always invoked, as the second conjunct's full delivery shows). -/
theorem c9_counterexample :
    emitDuration [Handler.mk 1 false 5000] = 5000
  ∧ emitDuration [Handler.mk 1 false 5000] ≠ 0
  ∧ (runHandlers [Handler.mk 1 true 0, Handler.mk 2 false 0]).1 = [1, 2] := by
  decide

end StatusBroadcaster

namespace WebRTCEvents

/-- The key list of a non-empty handler table. -/
theorem keys_cons (a : String) (l : List Nat) (rest : Handlers) :
    keys ((a, l) :: rest) = a :: keys rest := rfl

/-- Looking up an event that has no entry yields the empty handler set. -/
theorem getHandlers_of_not_mem_keys (m : Handlers) (e : String)
    (he : e ∉ keys m) : getHandlers m e = [] := by
  induction m with
  | nil => rfl
  | cons p rest ih =>
      obtain ⟨e0, hs⟩ := p
      rw [keys_cons, List.mem_cons, not_or] at he
      obtain ⟨h1, h2⟩ := he
      have h1' : ¬ (e0 = e) := fun hh => h1 hh.symm
      simp only [getHandlers, if_neg h1']
      exact ih h2

/-- After `subscribe`, the subscribed event's handler set gained the handler
via `Set.add`. -/
theorem getHandlers_subscribe_self (m : Handlers) (e : String) (h : Nat) :
    getHandlers (subscribe m e h) e = addSet (getHandlers m e) h := by
  induction m with
  | nil => simp [subscribe, getHandlers, addSet]
  | cons p rest ih =>
      obtain ⟨e0, hs⟩ := p
      by_cases he : e0 = e
      · subst he
        simp [subscribe, getHandlers]
      · simp [subscribe, getHandlers, he, ih]

/-- `subscribe` leaves every other event's handler set unchanged. -/
theorem getHandlers_subscribe_other (m : Handlers) (e e' : String) (h : Nat)
    (hne : e' ≠ e) :
    getHandlers (subscribe m e h) e' = getHandlers m e' := by
  have hne' : ¬ (e = e') := fun hh => hne hh.symm
  induction m with
  | nil => simp [subscribe, getHandlers, hne']
  | cons p rest ih =>
      obtain ⟨e0, hs⟩ := p
      by_cases he : e0 = e
      · subst he
        have hsub : subscribe ((e0, hs) :: rest) e0 h = (e0, addSet hs h) :: rest := by
          simp [subscribe]
        rw [hsub]
        simp only [getHandlers, if_neg hne']
      · have hsub : subscribe ((e0, hs) :: rest) e h = (e0, hs) :: subscribe rest e h := by
          simp [subscribe, he]
        rw [hsub]
        by_cases he2 : e0 = e'
        · simp only [getHandlers, if_pos he2]
        · simp only [getHandlers, if_neg he2]
          exact ih

/-- `unsubscribe` leaves every other event's handler set unchanged. -/
theorem getHandlers_unsubscribe_other (m : Handlers) (e e' : String) (h : Nat)
    (hne : e' ≠ e) :
    getHandlers (unsubscribe m e h) e' = getHandlers m e' := by
  have hne' : ¬ (e = e') := fun hh => hne hh.symm
  induction m with
  | nil => rfl
  | cons p rest ih =>
      obtain ⟨e0, hs⟩ := p
      by_cases he : e0 = e
      · subst he
        by_cases hemp : removeSet hs h = []
        · have hsub : unsubscribe ((e0, hs) :: rest) e0 h = rest := by
            simp [unsubscribe, hemp]
          rw [hsub]
          simp only [getHandlers, if_neg hne']
        · have hsub : unsubscribe ((e0, hs) :: rest) e0 h
              = (e0, removeSet hs h) :: rest := by
            simp [unsubscribe, hemp]
          rw [hsub]
          simp only [getHandlers, if_neg hne']
      · have hsub : unsubscribe ((e0, hs) :: rest) e h
            = (e0, hs) :: unsubscribe rest e h := by
          simp [unsubscribe, he]
        rw [hsub]
        by_cases he2 : e0 = e'
        · simp only [getHandlers, if_pos he2]
        · simp only [getHandlers, if_neg he2]
          exact ih

/-- The keys reachable after `subscribe`: the old keys plus the subscribed
event. -/
theorem mem_keys_subscribe (m : Handlers) (e x : String) (h : Nat) :
    x ∈ keys (subscribe m e h) ↔ (x ∈ keys m ∨ x = e) := by
  induction m with
  | nil => simp [subscribe, keys]
  | cons p rest ih =>
      obtain ⟨e0, hs⟩ := p
      by_cases he : e0 = e
      · subst he
        have hsub : subscribe ((e0, hs) :: rest) e0 h = (e0, addSet hs h) :: rest := by
          simp [subscribe]
        rw [hsub, keys_cons, keys_cons]
        simp only [List.mem_cons]
        tauto
      · have hsub : subscribe ((e0, hs) :: rest) e h = (e0, hs) :: subscribe rest e h := by
          simp [subscribe, he]
        rw [hsub, keys_cons, keys_cons]
        simp only [List.mem_cons]
        rw [ih]
        tauto

/-- `subscribe` preserves key uniqueness (a JS `Map` cannot hold duplicate
keys). -/
theorem keys_nodup_subscribe (m : Handlers) (e : String) (h : Nat)
    (hk : (keys m).Nodup) : (keys (subscribe m e h)).Nodup := by
  induction m with
  | nil => simp [subscribe, keys]
  | cons p rest ih =>
      obtain ⟨e0, hs⟩ := p
      rw [keys_cons, List.nodup_cons] at hk
      obtain ⟨hnotin, hrest⟩ := hk
      by_cases he : e0 = e
      · subst he
        have hsub : subscribe ((e0, hs) :: rest) e0 h = (e0, addSet hs h) :: rest := by
          simp [subscribe]
        rw [hsub, keys_cons, List.nodup_cons]
        exact ⟨hnotin, hrest⟩
      · have hsub : subscribe ((e0, hs) :: rest) e h = (e0, hs) :: subscribe rest e h := by
          simp [subscribe, he]
        rw [hsub, keys_cons, List.nodup_cons]
        refine ⟨?_, ih hrest⟩
        intro hmem
        rcases (mem_keys_subscribe rest e e0 h).mp hmem with hmem | hmem
        · exact hnotin hmem
        · exact he hmem

/-- With unique keys, `unsubscribe` performs `Set.delete` on the event's
handler set (and drops the entry when the set empties). -/
theorem getHandlers_unsubscribe_self (m : Handlers) (e : String) (h : Nat)
    (hk : (keys m).Nodup) :
    getHandlers (unsubscribe m e h) e = removeSet (getHandlers m e) h := by
  induction m with
  | nil => simp [unsubscribe, getHandlers, removeSet]
  | cons p rest ih =>
      obtain ⟨e0, hs⟩ := p
      simp only [keys, List.map_cons, List.nodup_cons] at hk
      obtain ⟨hnotin, hrest⟩ := hk
      by_cases he : e0 = e
      · subst he
        by_cases hemp : removeSet hs h = []
        · have h1 : unsubscribe ((e0, hs) :: rest) e0 h = rest := by
            simp [unsubscribe, hemp]
          have h2 : getHandlers ((e0, hs) :: rest) e0 = hs := by
            simp [getHandlers]
          rw [h1, h2, hemp]
          exact getHandlers_of_not_mem_keys rest e0 hnotin
        · simp [unsubscribe, hemp, getHandlers]
      · simp [unsubscribe, getHandlers, he, ih hrest]

/-- Membership in a handler set after `Set.delete`. -/
theorem mem_removeSet (l : List Nat) (h x : Nat) :
    x ∈ removeSet l h ↔ (x ∈ l ∧ x ≠ h) := by
  simp [removeSet, List.mem_filter]

/-- Deleting a freshly added handler restores the handler set. -/
theorem removeSet_addSet (l : List Nat) (h : Nat) (hne : h ∉ l) :
    removeSet (addSet l h) h = l := by
  simp only [addSet, if_neg hne, removeSet, List.filter_append]
  have h1 : l.filter (fun x => decide (x ≠ h)) = l := by
    apply List.filter_eq_self.mpr
    intro a ha
    simp only [decide_eq_true_eq]
    exact fun hh => hne (hh ▸ ha)
  have h2 : [h].filter (fun x => decide (x ≠ h)) = [] := by simp
  rw [h1, h2, List.append_nil]

/-- `Set.add` is idempotent. -/
theorem addSet_idem (l : List Nat) (h : Nat) :
    addSet (addSet l h) h = addSet l h := by
  by_cases hm : h ∈ l
  · simp [addSet, hm]
  · have hmem : h ∈ l ++ [h] := by simp
    simp [addSet, hm, hmem]

/-- Subscribing the same handler to the same event twice equals subscribing
it once. -/
theorem subscribe_idem (m : Handlers) (e : String) (h : Nat) :
    subscribe (subscribe m e h) e h = subscribe m e h := by
  induction m with
  | nil => simp [subscribe, addSet]
  | cons p rest ih =>
      obtain ⟨e0, hs⟩ := p
      by_cases he : e0 = e
      · subst he
        simp [subscribe, addSet_idem]
      · simp [subscribe, he, ih]

/-- A duplicate-free handler set stays duplicate-free under `Set.add`, so the
added handler occurs at most once. -/
theorem count_addSet_le_one (l : List Nat) (h : Nat) (hnd : l.Nodup) :
    (addSet l h).count h ≤ 1 := by
  by_cases hm : h ∈ l
  · rw [addSet, if_pos hm]
    exact List.nodup_iff_count_le_one.mp hnd h
  · rw [addSet, if_neg hm, List.count_append]
    have h1 : l.count h = 0 := List.count_eq_zero.mpr hm
    have h2 : ([h] : List Nat).count h = 1 := by simp
    omega

/-- C10: `subscribe` (`on`) followed by the unsubscription it returns
(`off` on the same event and handler) removes exactly that handler — a
subsequent `emit` of the event no longer invokes it, every other handler and
every other event are untouched, and for a handler that was not already
subscribed the whole handler table observably round-trips to its original
subscription state; subscribing the same handler twice to the same event
equals subscribing it once, and the handler is invoked at most once per
`emit`.  The key-uniqueness hypothesis holds in every state a JS `Map` can
reach. -/
theorem c10_on_off_round_trip (m : Handlers) (e : String) (h : Nat)
    (hk : (keys m).Nodup) (hfresh : h ∉ getHandlers m e) :
    (∀ x, x ∈ getHandlers (unsubscribe m e h) e ↔ (x ∈ getHandlers m e ∧ x ≠ h))
  ∧ h ∉ getHandlers (unsubscribe m e h) e
  ∧ (∀ e', getHandlers (unsubscribe (subscribe m e h) e h) e' = getHandlers m e')
  ∧ subscribe (subscribe m e h) e h = subscribe m e h
  ∧ ((getHandlers m e).Nodup → (getHandlers (subscribe m e h) e).count h ≤ 1) := by
  refine ⟨?_, ?_, ?_, subscribe_idem m e h, ?_⟩
  · intro x
    rw [getHandlers_unsubscribe_self m e h hk]
    exact mem_removeSet _ h x
  · rw [getHandlers_unsubscribe_self m e h hk, mem_removeSet]
    simp
  · intro e'
    by_cases he : e' = e
    · subst he
      rw [getHandlers_unsubscribe_self _ e' h (keys_nodup_subscribe m e' h hk),
        getHandlers_subscribe_self]
      exact removeSet_addSet _ h hfresh
    · rw [getHandlers_unsubscribe_other _ e e' h he]
      exact getHandlers_subscribe_other m e e' h he
  · intro hnd
    rw [getHandlers_subscribe_self]
    exact count_addSet_le_one _ h hnd

/-- Witness for C10: a table holding handler 7 for `stream`; handler 0 is
not subscribed, and on–off round-trips the `stream` handler set. -/
theorem c10_witness :
    (keys [("stream", [7])]).Nodup
  ∧ 0 ∉ getHandlers [("stream", [7])] "stream"
  ∧ getHandlers (unsubscribe (subscribe [("stream", [7])] "stream" 0) "stream" 0) "stream"
      = getHandlers [("stream", [7])] "stream" :=
  ⟨by decide, by decide,
   (c10_on_off_round_trip [("stream", [7])] "stream" 0 (by decide) (by decide)).2.2.1 "stream"⟩

end WebRTCEvents

